import Mathlib

/-!
Verification development for the ATMEGA 1284p model-train controller.

The controller drives a single train between a left terminus (station 0),
an optional middle station (station 1) and a right terminus (station 2),
using seven active-low hall-effect sensors, a polled state machine in
the Arduino loop function, a daily on/off schedule, and a two-channel
PWM motor output.

The definitions below are a shallow embedding of the C++ source:

- The seven-sensor snapshot is a record of seven booleans, where a field
  being true means the corresponding sensor is covered by a magnet (the
  source reads the active-low pin and negates it, so a covered sensor is
  exactly the case where the digitalRead-negation is true).
- The pure query helpers check_slow, check_center_slow, check_stop,
  check_schedule and depart_time are translated directly.
- The body of the loop function is translated as a step function
  loopStep over a state record TState holding the mutable globals,
  parameterized by a per-iteration input (sensor snapshot, millis and
  micros readings, wall-clock time, and the serial depart-now command,
  which is menu option 7).
- The float variable motor_speed only ever holds multiples of 1/4 in a
  small range, where binary floating point is exact, so it is embedded
  as a rational number.  The int variable prev_motor_speed is an
  integer; the float-to-int conversions of the source truncate toward
  zero.
- millis and micros return 32-bit unsigned values; subtraction of those
  is modular, embedded by usub32.  16-bit signed int arithmetic in
  check_schedule is embedded by the wrap function i16, and conversions
  of signed values to 32-bit unsigned comparisons by toU32.
- The blocking recovery loop inside the startup state consumes sensor
  samples at the loop rate; it is embedded as structural recursion over
  the list of samples the iteration draws, returning the unchanged
  still-searching state when the list is exhausted without a hit.
- The EEPROM reinitialization path (initEeprom, and the magic-number
  check of setup) is embedded as a pure function over the two
  configuration records.
-/

namespace TrainCtl

/-! ### Constants from the source -/

def EE_MAGIC_NUMBER : ℕ := 0xBBDC

def NUM_STOPS : ℕ := 3

def ACCEL_TICK_TIME : ℕ := 150000

def WAIT_PAUSE_TIMER : ℕ := 5000

def SLOW_MAX_TIMER : ℕ := 15000

def RUN_MAX_TIMER : ℕ := 30000

def STATE_SLEEPING : ℤ := 0

def STATE_STARTUP : ℤ := 1

def STATE_WAITING : ℤ := 2

def STATE_ACCEL : ℤ := 3

def STATE_RUNNING : ℤ := 4

def STATE_DEACCEL : ℤ := 5

def STATE_SLOW : ℤ := 6

def STATE_STOPPED : ℤ := 7

def START_SPEED : ℚ := 10

def MIN_SPEED : ℚ := 15

def MAX_SPEED : ℚ := 41

def IDLE_SPEED : ℚ := 8

/-! ### C arithmetic helpers -/

/-- Wrap-around of 16-bit signed int arithmetic (AVR int). -/
def i16 (x : ℤ) : ℤ := (x + 32768) % 65536 - 32768

/-- Modulus of 32-bit unsigned long arithmetic. -/
def U32 : ℕ := 4294967296

/-- Unsigned 32-bit subtraction, as in millis() - previousMillis. -/
def usub32 (a b : ℕ) : ℕ := (a + U32 - b % U32) % U32

/-- Conversion of a signed value to unsigned long for a comparison. -/
def toU32 (x : ℤ) : ℕ := (x % (U32 : ℤ)).toNat

/-- C bool-to-int promotion. -/
def boolToInt (b : Bool) : ℤ := if b then 1 else 0

/-- Bitwise complement on a (promoted) two's-complement integer. -/
def bitNotInt (x : ℤ) : ℤ := -x - 1

/-- C int-to-bool conversion: any non-zero value is true. -/
def intToBool (x : ℤ) : Bool := decide (x ≠ 0)

/-- The combined effect of the statement assigning the bitwise
complement of the boolean direction flag back to the flag, as in the
emergency-stop paths of the running and slow states. -/
def cBitNotBool (b : Bool) : Bool := intToBool (bitNotInt (boolToInt b))

/-- Truncation toward zero, as in a C float-to-int conversion. -/
def truncRat (q : ℚ) : ℤ := if 0 ≤ q then q.floor else -(Rat.floor (-q))

/-! ### Sensor snapshot and the pure query helpers -/

/-- One instantaneous reading of the seven position sensors, in the
physical left-to-right order of the line.  A field is true when the
sensor is covered (the source negates the active-low digitalRead). -/
structure Snap where
  l_stop : Bool
  l_slow : Bool
  c_l_slow : Bool
  c_stop : Bool
  c_r_slow : Bool
  r_slow : Bool
  r_stop : Bool
deriving DecidableEq

/-- Translation of check_slow: station of a covered slow sensor,
left first, then either center slow, then right, else -1. -/
def check_slow (s : Snap) : ℤ :=
  if s.l_slow then 0
  else if s.c_l_slow || s.c_r_slow then 1
  else if s.r_slow then 2
  else -1

/-- Translation of check_center_slow: 0 for the left-of-middle slow
sensor, 2 for the right-of-middle one, else -1. -/
def check_center_slow (s : Snap) : ℤ :=
  if s.c_l_slow then 0
  else if s.c_r_slow then 2
  else -1

/-- Translation of check_stop: station of a covered stop sensor,
left first, then center, then right, else -1. -/
def check_stop (s : Snap) : ℤ :=
  if s.l_stop then 0
  else if s.c_stop then 1
  else if s.r_stop then 2
  else -1

/-! ### Schedule and clock -/

/-- The on_off_times array: on hour, on minute, off hour, off minute,
enabled flag. -/
structure Schedule where
  on_hour : ℤ
  on_minute : ℤ
  off_hour : ℤ
  off_minute : ℤ
  enabled : ℤ
deriving DecidableEq

/-- A wall-clock reading, as returned by hour(), minute(), second(). -/
structure Clock where
  hour : ℤ
  minute : ℤ
  second : ℤ
deriving DecidableEq

/-- Translation of check_schedule: true when the enabled flag is zero
(schedule disabled), otherwise the minutes-since-midnight window test,
computed in 16-bit int arithmetic. -/
def check_schedule (sched : Schedule) (c : Clock) : Bool :=
  if sched.enabled = 0 then true
  else
    let now_minutes := i16 (c.hour * 60 + c.minute)
    let on_minutes := i16 (sched.on_hour * 60 + sched.on_minute)
    let off_minutes := i16 (sched.off_hour * 60 + sched.off_minute)
    decide (now_minutes ≥ on_minutes ∧ now_minutes < off_minutes)

/-- Translation of depart_time: quarter-hour departure instants. -/
def depart_time (c : Clock) : Bool :=
  decide ((c.minute = 15 ∨ c.minute = 30 ∨ c.minute = 45 ∨ c.minute = 0)
    ∧ c.second = 0)

/-! ### Persisted configuration -/

/-- The station_wait_times array, one entry per station. -/
structure WaitTimes where
  w0 : ℤ
  w1 : ℤ
  w2 : ℤ
deriving DecidableEq

/-- Indexing station_wait_times with an int index. -/
def WaitTimes.get (w : WaitTimes) (i : ℤ) : ℤ :=
  if i = 0 then w.w0 else if i = 1 then w.w1 else w.w2

/-- Assignment to one slot of station_wait_times. -/
def WaitTimes.setSlot (w : WaitTimes) (i : ℕ) (v : ℤ) : WaitTimes :=
  if i = 0 then { w with w0 := v }
  else if i = 1 then { w with w1 := v }
  else { w with w2 := v }

/-- Translation of initEeprom, as a function of the RAM configuration
it mutates.  The for loop of the source runs slot from 0 while
slot < NUM_STOPS - 1, writing 10 in both arms of its conditional; then
the schedule defaults are assigned field by field. -/
def initEeprom (w : WaitTimes) : WaitTimes × Schedule :=
  let w' := (List.range (NUM_STOPS - 1)).foldl
    (fun acc slot =>
      acc.setSlot slot (if slot = 0 ∨ slot = NUM_STOPS - 1 then 10 else 10)) w
  (w', { on_hour := 6, on_minute := 0, off_hour := 22, off_minute := 0,
         enabled := 1 })

/-- Translation of the configuration part of setup: read the magic
number; on mismatch reinitialize (over the zero-initialized RAM
globals), otherwise load the stored records. -/
def setupConfig (magicNumber : ℕ) (storedWaits : WaitTimes)
    (storedSched : Schedule) (ramWaits : WaitTimes) : WaitTimes × Schedule :=
  if magicNumber ≠ EE_MAGIC_NUMBER then initEeprom ramWaits
  else (storedWaits, storedSched)

/-! ### The mutable state of the loop and its per-iteration inputs -/

/-- The mutable globals read and written by the loop function. -/
structure TState where
  program_state : ℤ
  is_startup : Bool
  is_running : Bool
  direction_left : Bool
  current_station : ℤ
  temp_station : ℤ
  check_result : ℤ
  motor_speed : ℚ
  prev_motor_speed : ℤ
  deaccel_tick_time : ℤ
  previousMillis : ℕ
  runMillis : ℕ
  station_wait_times : WaitTimes
  on_off_times : Schedule
deriving DecidableEq

/-- The external readings one loop iteration consumes: the serial
depart-now command (menu option 7), the sensor snapshot, the extra
snapshots the blocking startup recovery loop samples, the millis and
micros counters, and the wall clock. -/
structure LoopInput where
  departNow : Bool
  snap : Snap
  extraSnaps : List Snap
  nowMs : ℕ
  nowUs : ℕ
  clock : Clock
deriving DecidableEq

/-- The serial-menu prefix of the loop body: option 7 sets the speed to
START_SPEED and the state to accelerating before the switch runs. -/
def menuStep (s : TState) (i : LoopInput) : TState :=
  if i.departNow then
    { s with motor_speed := START_SPEED, program_state := STATE_ACCEL }
  else s

/-- The sleeping case: wake into startup when the schedule is active. -/
def sleepingStep (s : TState) (i : LoopInput) : TState :=
  let isr := check_schedule s.on_off_times i.clock
  if isr then
    { s with is_running := isr, program_state := STATE_STARTUP }
  else
    { s with is_running := isr }

/-- The blocking while loop of the startup case, recursing over the
samples this iteration draws.  Note the loop body gives station 0 the
direction value 0 and stations 1 and 2 the value 1, the opposite of the
assignments in the immediate check before the loop. -/
def startupLoop (s : TState) : List Snap → TState
  | [] => s
  | snap :: rest =>
    if s.current_station = -1 then
      let t := check_stop snap
      let s1 := { s with temp_station := t, current_station := t }
      let s2 :=
        if s1.current_station = 0 then
          { s1 with current_station := 0, direction_left := false,
                    program_state := STATE_ACCEL }
        else s1
      let s3 :=
        if s2.current_station ≥ 1 then
          { s2 with direction_left := true, motor_speed := MIN_SPEED,
                    program_state := STATE_ACCEL }
        else s2
      startupLoop s3 rest
    else s

/-- The startup case: sample the stop sensors once; if found, set the
station and direction and accelerate (the immediate check writes 1 to
the direction flag for station 0 and 0 for stations 1 and 2); if not
found, block in the recovery loop.  The trailing assignments after the
loop only run once a station has been found. -/
def startupStep (s : TState) (i : LoopInput) : TState :=
  let s0 := { s with is_startup := false }
  let t := check_stop i.snap
  let s1 := { s0 with temp_station := t, current_station := t }
  let s2 :=
    if s1.current_station = 0 then
      { s1 with current_station := 0, direction_left := true,
                program_state := STATE_ACCEL }
    else s1
  let s3 :=
    if s2.current_station ≥ 1 then
      { s2 with direction_left := false, motor_speed := MIN_SPEED,
                program_state := STATE_ACCEL }
    else s2
  let s4 := startupLoop s3 i.extraSnaps
  if s4.current_station = -1 then s4
  else
    { s4 with program_state := STATE_ACCEL, previousMillis := i.nowMs }

/-- The waiting case: idle power (cut after the pause timer at the
termini), the schedule check with its direct transition to sleeping,
and the departure test (wait time at the middle station, quarter-hour
at the termini). -/
def waitingStep (s : TState) (i : LoopInput) : TState :=
  let s0 :=
    if s.current_station = 1 then { s with motor_speed := IDLE_SPEED }
    else { s with motor_speed := IDLE_SPEED }
  let s1 :=
    if s0.current_station ≠ 1
        ∧ usub32 i.nowMs s0.previousMillis > WAIT_PAUSE_TIMER then
      { s0 with motor_speed := 0 }
    else s0
  let isr := check_schedule s1.on_off_times i.clock
  let s2 := { s1 with is_running := isr }
  if ¬ isr then
    { s2 with motor_speed := 0, program_state := STATE_SLEEPING }
  else if (s2.current_station = 1
        ∧ usub32 i.nowMs s2.previousMillis
            > toU32 (s2.station_wait_times.get s2.current_station * 1000))
      ∨ (s2.current_station ≠ 1 ∧ depart_time i.clock = true) then
    { s2 with program_state := STATE_ACCEL, motor_speed := START_SPEED,
              previousMillis := i.nowUs }
  else s2

/-- The accelerating case.  A slow hit at a new station breaks into
decelerating; a non-middle stop hit at a new station sets the stopped
state without a break, so the max-speed check still runs after it;
otherwise the ramp adds a quarter unit each tick interval. -/
def accelStep (s : TState) (i : LoopInput) : TState :=
  let s0 := { s with check_result := check_slow i.snap }
  if s0.check_result > -1 ∧ s0.current_station ≠ s0.check_result then
    { s0 with current_station := s0.check_result,
              temp_station := s0.check_result,
              program_state := STATE_DEACCEL, previousMillis := i.nowUs }
  else
    let s1 := { s0 with check_result := check_stop i.snap }
    let s2 :=
      if s1.check_result > -1 ∧ s1.check_result ≠ 1
          ∧ s1.current_station ≠ s1.check_result then
        { s1 with current_station := s1.check_result,
                  temp_station := s1.check_result,
                  program_state := STATE_STOPPED, previousMillis := i.nowUs }
      else s1
    if s2.motor_speed ≥ MAX_SPEED then
      { s2 with program_state := STATE_RUNNING, runMillis := i.nowMs }
    else if usub32 i.nowUs s2.previousMillis ≥ ACCEL_TICK_TIME then
      { s2 with motor_speed := s2.motor_speed + 1/4,
                previousMillis := i.nowUs }
    else s2

/-- The running case: the runaway guard first (forcing the stopped
state and assigning the bitwise complement of the direction flag),
then the slow check (without a break) and the stop check. -/
def runningStep (s : TState) (i : LoopInput) : TState :=
  if usub32 i.nowMs s.runMillis ≥ RUN_MAX_TIMER then
    { s with program_state := STATE_STOPPED,
             direction_left := cBitNotBool s.direction_left }
  else
    let s0 := { s with check_result := check_slow i.snap }
    let s1 :=
      if s0.check_result > -1 ∧ s0.current_station ≠ s0.check_result then
        { s0 with current_station := s0.check_result,
                  temp_station := s0.check_result,
                  program_state := STATE_DEACCEL, previousMillis := i.nowUs }
      else s0
    let s2 := { s1 with check_result := check_stop i.snap }
    if s2.check_result > -1 ∧ s2.check_result ≠ 1 then
      { s2 with current_station := s2.check_result,
                program_state := STATE_STOPPED, previousMillis := i.nowUs }
    else s2

/-- The shared tail of the decelerating case: the minimum-speed test,
the cadence selection (slower ticks when the target is the middle
station) and the guarded decrement. -/
def deaccelTail (s : TState) (i : LoopInput) : TState :=
  if s.motor_speed ≤ MIN_SPEED then
    { s with program_state := STATE_SLOW, runMillis := i.nowMs }
  else
    let s0 :=
      if s.current_station = 1 then { s with deaccel_tick_time := 19000 }
      else { s with deaccel_tick_time := 1 }
    if usub32 i.nowUs s0.previousMillis ≥ toU32 s0.deaccel_tick_time
        ∧ s0.motor_speed > MIN_SPEED then
      { s0 with motor_speed := s0.motor_speed - 1, previousMillis := i.nowUs }
    else s0

/-- The decelerating case: a non-middle stop hit stops; when the middle
stop sensor is covered the opposing center slow sensor (relative to the
travel direction) stops instead; otherwise the ramp-down tail runs. -/
def deaccelStep (s : TState) (i : LoopInput) : TState :=
  let s0 := { s with check_result := check_stop i.snap }
  if s0.check_result > -1 ∧ s0.check_result ≠ 1 then
    { s0 with current_station := s0.check_result,
              temp_station := s0.check_result,
              program_state := STATE_STOPPED, previousMillis := i.nowUs }
  else if s0.check_result = 1 then
    let s1 := { s0 with check_result := check_center_slow i.snap }
    if (s1.check_result = 0 ∧ s1.direction_left)
        ∨ (s1.check_result = 2 ∧ ¬ s1.direction_left) then
      { s1 with current_station := 1, temp_station := 1,
                program_state := STATE_STOPPED, previousMillis := i.nowUs }
    else deaccelTail s1 i
  else deaccelTail s0 i

/-- The slow (creeping) case: the bounded-crawl guard first (also
assigning the bitwise complement of the direction flag), then the stop
check (this one does not touch previousMillis) and, only when the
current station is the middle one, the opposing center slow check. -/
def slowStep (s : TState) (i : LoopInput) : TState :=
  if usub32 i.nowMs s.runMillis ≥ SLOW_MAX_TIMER then
    { s with program_state := STATE_STOPPED,
             direction_left := cBitNotBool s.direction_left }
  else
    let s0 := { s with check_result := check_stop i.snap }
    if s0.check_result > -1 ∧ s0.check_result ≠ 1 then
      { s0 with current_station := s0.check_result,
                temp_station := s0.check_result,
                program_state := STATE_STOPPED }
    else if s0.current_station = 1 then
      let s1 := { s0 with check_result := check_center_slow i.snap }
      if (s1.check_result = 0 ∧ s1.direction_left)
          ∨ (s1.check_result = 2 ∧ ¬ s1.direction_left) then
        { s1 with current_station := 1, temp_station := 1,
                  program_state := STATE_STOPPED, previousMillis := i.nowUs }
      else s1
    else s0

/-- The stopped case: idle power, automatic reversal at the termini,
the sleep test at the left terminus only, and the move to waiting. -/
def stoppedStep (s : TState) (i : LoopInput) : TState :=
  let s0 :=
    if s.current_station = 1 then { s with motor_speed := IDLE_SPEED }
    else { s with motor_speed := IDLE_SPEED }
  let s1 :=
    if s0.current_station = 2 then { s0 with direction_left := true }
    else s0
  if s1.current_station = 0 then
    let s2 := { s1 with direction_left := false }
    let isr := check_schedule s2.on_off_times i.clock
    let s3 := { s2 with is_running := isr }
    if isr = false then
      { s3 with program_state := STATE_SLEEPING, previousMillis := i.nowMs }
    else
      { s3 with program_state := STATE_WAITING, previousMillis := i.nowMs }
  else
    { s1 with program_state := STATE_WAITING, previousMillis := i.nowMs }

/-- The switch over program_state. -/
def switchStep (s : TState) (i : LoopInput) : TState :=
  if s.program_state = STATE_SLEEPING then sleepingStep s i
  else if s.program_state = STATE_STARTUP then startupStep s i
  else if s.program_state = STATE_WAITING then waitingStep s i
  else if s.program_state = STATE_ACCEL then accelStep s i
  else if s.program_state = STATE_RUNNING then runningStep s i
  else if s.program_state = STATE_DEACCEL then deaccelStep s i
  else if s.program_state = STATE_SLOW then slowStep s i
  else if s.program_state = STATE_STOPPED then stoppedStep s i
  else s

/-- The motor-output block at the end of the loop body: when the float
speed differs from the stored previous integer speed, write the
truncated magnitude to the channel selected by the direction flag and
zero to the other channel, and store the truncated magnitude.  The
first component is the emitted (left, right) pair, if any. -/
def motorOutput (motor_speed : ℚ) (prev_motor_speed : ℤ)
    (direction_left : Bool) : Option (ℤ × ℤ) × ℤ :=
  if motor_speed ≠ (prev_motor_speed : ℚ) then
    (some (if direction_left then (truncRat motor_speed, 0)
           else (0, truncRat motor_speed)),
     truncRat motor_speed)
  else (none, prev_motor_speed)

/-- The state effect of the motor-output block. -/
def motorStep (s : TState) : TState :=
  { s with prev_motor_speed :=
      (motorOutput s.motor_speed s.prev_motor_speed s.direction_left).2 }

/-- One iteration of the loop function: the serial menu prefix, the
state-machine switch, then the motor-output block. -/
def loopStep (s : TState) (i : LoopInput) : TState :=
  motorStep (switchStep (menuStep s i) i)

/-- The state after power-on: the initializers of the globals, with the
configuration records as loaded by setup. -/
def initState (w : WaitTimes) (sched : Schedule) : TState :=
  { program_state := 1, is_startup := true, is_running := true,
    direction_left := false, current_station := 3, temp_station := 0,
    check_result := 9, motor_speed := 0, prev_motor_speed := 0,
    deaccel_tick_time := 1000, previousMillis := 0, runMillis := 0,
    station_wait_times := w, on_off_times := sched }

/-- A state of the control loop is reachable when some run of loop
iterations from power-on (under some loaded configuration) produces
it. -/
def Reachable (s : TState) : Prop :=
  ∃ (w : WaitTimes) (sched : Schedule) (inputs : List LoopInput),
    s = List.foldl loopStep (initState w sched) inputs

/-! ### Claim-side notions and concrete instances used by the theorems -/

/-- Number of covered lines in a snapshot. -/
def countAsserted (s : Snap) : ℕ :=
  (cond s.l_stop 1 0) + (cond s.l_slow 1 0) + (cond s.c_l_slow 1 0)
    + (cond s.c_stop 1 0) + (cond s.c_r_slow 1 0) + (cond s.r_slow 1 0)
    + (cond s.r_stop 1 0)

/-- The stop sensor of station i is covered. -/
def stopCoveredAt (s : Snap) (i : ℤ) : Prop :=
  (i = 0 ∧ s.l_stop = true) ∨ (i = 1 ∧ s.c_stop = true)
    ∨ (i = 2 ∧ s.r_stop = true)

/-- A slow sensor belonging to station i is covered (both center slow
sensors belong to the middle station). -/
def slowCoveredAt (s : Snap) (i : ℤ) : Prop :=
  (i = 0 ∧ s.l_slow = true)
    ∨ (i = 1 ∧ (s.c_l_slow = true ∨ s.c_r_slow = true))
    ∨ (i = 2 ∧ s.r_slow = true)

/-- Exactly one of the two motor channels carries a non-zero value. -/
def exactlyOneNonzero (p : ℤ × ℤ) : Prop :=
  (p.1 ≠ 0 ∧ p.2 = 0) ∨ (p.1 = 0 ∧ p.2 ≠ 0)

instance (s : Snap) (i : ℤ) : Decidable (stopCoveredAt s i) := by
  unfold stopCoveredAt; infer_instance

instance (s : Snap) (i : ℤ) : Decidable (slowCoveredAt s i) := by
  unfold slowCoveredAt; infer_instance

instance (p : ℤ × ℤ) : Decidable (exactlyOneNonzero p) := by
  unfold exactlyOneNonzero; infer_instance

/-- A speed value on the quarter-unit grid between 0 and MAX_SPEED. -/
def QInv (q : ℚ) : Prop :=
  ∃ k : ℕ, k ≤ 164 ∧ q = (k : ℚ) / 4

/-- The candidate invariant behind the speed bounds: the float speed is
a multiple of a quarter unit between 0 and MAX_SPEED.  Every assignment
of the source writes such a value (0, IDLE_SPEED, START_SPEED,
MIN_SPEED, a quarter-unit increment below MAX_SPEED, or a unit
decrement above MIN_SPEED). -/
def SpeedInv (s : TState) : Prop :=
  QInv s.motor_speed

/-- The train is moving: a motion state with non-idle speed. -/
def movingState (s : TState) : Prop :=
  (s.program_state = STATE_ACCEL ∨ s.program_state = STATE_RUNNING
      ∨ s.program_state = STATE_DEACCEL ∨ s.program_state = STATE_SLOW)
    ∧ s.motor_speed ≠ 0 ∧ s.motor_speed ≠ IDLE_SPEED

instance (s : TState) : Decidable (movingState s) := by
  unfold movingState; infer_instance

/-- The rational 10.25, one quarter-step above START_SPEED, given in
normal form so that it evaluates without rational normalization. -/
def qTenQuarter : ℚ := ⟨41, 4, by norm_num, by norm_num⟩

/-- Snapshot with no sensor covered. -/
def noneSnap : Snap := ⟨false, false, false, false, false, false, false⟩

/-- Snapshot with only the left stop sensor covered. -/
def lStopSnap : Snap := ⟨true, false, false, false, false, false, false⟩

/-- Snapshot with only the center stop sensor covered. -/
def cStopSnap : Snap := ⟨false, false, false, true, false, false, false⟩

/-- Snapshot with only the right stop sensor covered. -/
def rStopSnap : Snap := ⟨false, false, false, false, false, false, true⟩

/-- An input with no serial command and no extra startup samples. -/
def mkInput (sn : Snap) (ms us : ℕ) (c : Clock) : LoopInput :=
  { departNow := false, snap := sn, extraSnaps := [], nowMs := ms,
    nowUs := us, clock := c }

/-- Power-on state with a zeroed configuration (schedule disabled). -/
def powerOn : TState := initState ⟨0, 0, 0⟩ ⟨0, 0, 0, 0, 0⟩

/-- A running state heading left, having entered the running state at
millisecond 0. -/
def c1RunState : TState :=
  { powerOn with program_state := STATE_RUNNING, direction_left := true,
                 runMillis := 0 }

/-- No sensors, exactly RUN_MAX_TIMER milliseconds after entering the
running state. -/
def c1AtBoundary : LoopInput := mkInput noneSnap RUN_MAX_TIMER 0 ⟨12, 0, 0⟩

/-- No sensors, one millisecond before the runaway boundary. -/
def c1BeforeBoundary : LoopInput :=
  mkInput noneSnap (RUN_MAX_TIMER - 1) 0 ⟨12, 0, 0⟩

/-- The startup step taken with the left stop sensor covered. -/
def c2AfterLeft : TState := loopStep powerOn (mkInput lStopSnap 0 0 ⟨12, 0, 0⟩)

/-- The startup step taken with the right stop sensor covered. -/
def c2AfterRight : TState := loopStep powerOn (mkInput rStopSnap 0 0 ⟨12, 0, 0⟩)

/-- Four power-on iterations: locate at the center stop, run into the
right stop, settle, and depart at a quarter-hour; departure loads
START_SPEED, which is below MIN_SPEED, while accelerating. -/
def c4Trace : TState :=
  List.foldl loopStep powerOn
    [mkInput cStopSnap 0 0 ⟨12, 1, 0⟩,
     mkInput rStopSnap 0 0 ⟨12, 1, 0⟩,
     mkInput noneSnap 0 0 ⟨12, 1, 0⟩,
     mkInput noneSnap 0 0 ⟨12, 15, 0⟩]

/-- A wait at the middle station under the documented default schedule. -/
def c5WaitState : TState :=
  { (initState ⟨10, 10, 10⟩ ⟨6, 0, 22, 0, 1⟩) with
      program_state := STATE_WAITING, current_station := 1,
      motor_speed := IDLE_SPEED }

/-- A reading taken at 23:00, outside the schedule window. -/
def c5NightInput : LoopInput := mkInput noneSnap 0 0 ⟨23, 0, 0⟩

/-! ### Projection helpers for reasoning about branching state updates -/

@[simp]
theorem ite_program_state (c : Prop) [Decidable c] (a b : TState) :
    (if c then a else b).program_state
      = if c then a.program_state else b.program_state := apply_ite _ c a b

@[simp]
theorem ite_motor_speed (c : Prop) [Decidable c] (a b : TState) :
    (if c then a else b).motor_speed
      = if c then a.motor_speed else b.motor_speed := apply_ite _ c a b

@[simp]
theorem ite_on_off_times (c : Prop) [Decidable c] (a b : TState) :
    (if c then a else b).on_off_times
      = if c then a.on_off_times else b.on_off_times := apply_ite _ c a b

@[simp]
theorem ite_current_station (c : Prop) [Decidable c] (a b : TState) :
    (if c then a else b).current_station
      = if c then a.current_station else b.current_station := apply_ite _ c a b

@[simp]
theorem ite_direction_left (c : Prop) [Decidable c] (a b : TState) :
    (if c then a else b).direction_left
      = if c then a.direction_left else b.direction_left := apply_ite _ c a b

@[simp]
theorem ite_previousMillis (c : Prop) [Decidable c] (a b : TState) :
    (if c then a else b).previousMillis
      = if c then a.previousMillis else b.previousMillis := apply_ite _ c a b

@[simp]
theorem ite_runMillis (c : Prop) [Decidable c] (a b : TState) :
    (if c then a else b).runMillis
      = if c then a.runMillis else b.runMillis := apply_ite _ c a b

@[simp]
theorem ite_check_result (c : Prop) [Decidable c] (a b : TState) :
    (if c then a else b).check_result
      = if c then a.check_result else b.check_result := apply_ite _ c a b

@[simp]
theorem ite_temp_station (c : Prop) [Decidable c] (a b : TState) :
    (if c then a else b).temp_station
      = if c then a.temp_station else b.temp_station := apply_ite _ c a b

@[simp]
theorem ite_station_wait_times (c : Prop) [Decidable c] (a b : TState) :
    (if c then a else b).station_wait_times
      = if c then a.station_wait_times else b.station_wait_times :=
  apply_ite _ c a b

@[simp]
theorem ite_deaccel_tick_time (c : Prop) [Decidable c] (a b : TState) :
    (if c then a else b).deaccel_tick_time
      = if c then a.deaccel_tick_time else b.deaccel_tick_time :=
  apply_ite _ c a b

@[simp]
theorem ite_is_running (c : Prop) [Decidable c] (a b : TState) :
    (if c then a else b).is_running
      = if c then a.is_running else b.is_running := apply_ite _ c a b

@[simp]
theorem ite_is_startup (c : Prop) [Decidable c] (a b : TState) :
    (if c then a else b).is_startup
      = if c then a.is_startup else b.is_startup := apply_ite _ c a b

@[simp]
theorem ite_prev_motor_speed (c : Prop) [Decidable c] (a b : TState) :
    (if c then a else b).prev_motor_speed
      = if c then a.prev_motor_speed else b.prev_motor_speed :=
  apply_ite _ c a b

@[simp]
theorem motorStep_program_state (s : TState) :
    (motorStep s).program_state = s.program_state := rfl

@[simp]
theorem motorStep_motor_speed (s : TState) :
    (motorStep s).motor_speed = s.motor_speed := rfl

@[simp]
theorem motorStep_direction_left (s : TState) :
    (motorStep s).direction_left = s.direction_left := rfl

@[simp]
theorem motorStep_current_station (s : TState) :
    (motorStep s).current_station = s.current_station := rfl

/-! ### Claim theorems -/

/-- C1.  The runaway guard of the running state does force the stopped
state, and it fires exactly at the RUN_MAX_TIMER boundary and not one
millisecond before; but the direction flag is not logically negated:
the source assigns the bitwise complement of the boolean flag, whose
promoted value -2 converts back to true, so a train heading left keeps
direction_left = true after the emergency stop instead of the claimed
negation. -/
theorem c1_running_timeout_reversal_bug :
    c1RunState.direction_left = true
      ∧ check_slow c1AtBoundary.snap = -1 ∧ check_stop c1AtBoundary.snap = -1
      ∧ usub32 c1AtBoundary.nowMs c1RunState.runMillis = RUN_MAX_TIMER
      ∧ (loopStep c1RunState c1AtBoundary).program_state = STATE_STOPPED
      ∧ (loopStep c1RunState c1AtBoundary).direction_left = true
      ∧ (loopStep c1RunState c1BeforeBoundary).program_state = STATE_RUNNING := by
  decide

/-- C2.  In the startup step's immediate check, a train found at the
left stop sensor gets current_station 0 and the accelerating state as
claimed, but direction_left is assigned 1 (leftward) — the code's own
comment says "set direction to the right" and its recovery loop and
stopped-state logic assign 0 there; symmetrically a train found at the
right stop sensor gets direction_left = 0 (rightward) instead of the
claimed leftward direction. -/
theorem c2_startup_direction_bug :
    powerOn.program_state = STATE_STARTUP
      ∧ c2AfterLeft.program_state = STATE_ACCEL
      ∧ c2AfterLeft.current_station = 0
      ∧ c2AfterLeft.direction_left = true
      ∧ c2AfterRight.program_state = STATE_ACCEL
      ∧ c2AfterRight.current_station = 2
      ∧ c2AfterRight.direction_left = false := by
  decide

/-- C3.  On a magic-number mismatch the reinitialization writes the
documented schedule defaults, but its for loop runs slot from 0 while
slot < NUM_STOPS - 1, so only stations 0 and 1 receive the 10-second
default; station 2 keeps the zero-initialized RAM value, contradicting
the claim and the function's own comment about the first and last
stops. -/
theorem c3_initEeprom_default_bug :
    setupConfig 0 ⟨1, 2, 3⟩ ⟨9, 9, 9, 9, 9⟩ ⟨0, 0, 0⟩
        = (⟨10, 10, 0⟩, ⟨6, 0, 22, 0, 1⟩)
      ∧ (setupConfig 0 ⟨1, 2, 3⟩ ⟨9, 9, 9, 9, 9⟩ ⟨0, 0, 0⟩).1.w2 ≠ 10 := by
  decide

/-- C6 counterexample.  With a commanded magnitude of 0 (and a stale
previous value) the block emits the pair (0, 0), where no channel is
non-zero; and with the fractional speed 10.25 against the stored
truncated previous value 10 the block emits (10, 0) and stores 10
again, so the very next iteration re-emits the identical
(direction, magnitude) pair — a redundant write. -/
theorem c6_motor_output_counterexample :
    motorOutput 0 5 true = (some (0, 0), 0)
      ∧ ¬ exactlyOneNonzero (0, 0)
      ∧ qTenQuarter = 41 / 4
      ∧ (motorOutput qTenQuarter 10 true).1 = some (10, 0)
      ∧ (motorOutput qTenQuarter ((motorOutput qTenQuarter 10 true).2) true).1
          = some (10, 0) := by
  refine ⟨by decide, by decide, ?_, by decide, by decide⟩
  rw [qTenQuarter, Rat.mk'_eq_divInt, Rat.divInt_eq_div]
  norm_num

/-- C6 amended.  An emission happens exactly when the float speed
differs from the stored previous integer speed; every emitted pair puts
the truncated magnitude on the channel selected by direction_left and
zero on the other channel, so at most one channel is non-zero (both are
zero when the magnitude truncates to zero). -/
theorem c6_motor_output_amended (ms : ℚ) (pm : ℤ) (dir : Bool) :
    ((motorOutput ms pm dir).1 ≠ none ↔ ms ≠ (pm : ℚ))
      ∧ (∀ p : ℤ × ℤ, (motorOutput ms pm dir).1 = some p →
          (p.1 = 0 ∨ p.2 = 0)
            ∧ (dir = true → p.1 = truncRat ms ∧ p.2 = 0)
            ∧ (dir = false → p.1 = 0 ∧ p.2 = truncRat ms)) := by
  by_cases h : ms = (pm : ℚ)
  · subst h
    refine ⟨by simp [motorOutput], ?_⟩
    intro p hp
    simp [motorOutput] at hp
  · refine ⟨by simp [motorOutput, h], ?_⟩
    intro p hp
    simp only [motorOutput] at hp
    rw [if_pos h] at hp
    simp only [Option.some.injEq] at hp
    subst hp
    cases dir <;> simp

/-- C6 amended, witness at speed 8, previous 0, leftward. -/
theorem c6_motor_output_amended_witness :
    (motorOutput 8 0 true).1 = some (8, 0)
      ∧ ((8 : ℤ) = 0 ∨ (0 : ℤ) = 0)
      ∧ (8 : ℤ) = truncRat 8 := by
  refine ⟨by decide, ((c6_motor_output_amended 8 0 true).2 (8, 0) (by decide)).1,
    ?_⟩
  have h := (((c6_motor_output_amended 8 0 true).2 (8, 0) (by decide)).2.1) rfl
  exact h.1.symm

/-- C7.  For every snapshot with at most one covered line, the stop
query returns the station of the covered stop sensor and the slow query
the station of the covered slow sensor (left 0, either center slow 1,
right 2), the other query returning -1; with no covered line both
return -1. -/
theorem c7_single_sensor_queries :
    ∀ a b c d e f g : Bool,
      countAsserted ⟨a, b, c, d, e, f, g⟩ ≤ 1 →
        ((a = true → check_stop ⟨a, b, c, d, e, f, g⟩ = 0
            ∧ check_slow ⟨a, b, c, d, e, f, g⟩ = -1)
          ∧ (d = true → check_stop ⟨a, b, c, d, e, f, g⟩ = 1
              ∧ check_slow ⟨a, b, c, d, e, f, g⟩ = -1)
          ∧ (g = true → check_stop ⟨a, b, c, d, e, f, g⟩ = 2
              ∧ check_slow ⟨a, b, c, d, e, f, g⟩ = -1)
          ∧ (b = true → check_slow ⟨a, b, c, d, e, f, g⟩ = 0
              ∧ check_stop ⟨a, b, c, d, e, f, g⟩ = -1)
          ∧ (c = true → check_slow ⟨a, b, c, d, e, f, g⟩ = 1
              ∧ check_stop ⟨a, b, c, d, e, f, g⟩ = -1)
          ∧ (e = true → check_slow ⟨a, b, c, d, e, f, g⟩ = 1
              ∧ check_stop ⟨a, b, c, d, e, f, g⟩ = -1)
          ∧ (f = true → check_slow ⟨a, b, c, d, e, f, g⟩ = 2
              ∧ check_stop ⟨a, b, c, d, e, f, g⟩ = -1)
          ∧ (countAsserted ⟨a, b, c, d, e, f, g⟩ = 0 →
              check_stop ⟨a, b, c, d, e, f, g⟩ = -1
                ∧ check_slow ⟨a, b, c, d, e, f, g⟩ = -1)) := by
  decide

/-- C7 witness: the snapshot covering only the left stop sensor. -/
theorem c7_single_sensor_queries_witness :
    check_stop ⟨true, false, false, false, false, false, false⟩ = 0
      ∧ check_slow ⟨true, false, false, false, false, false, false⟩ = -1 :=
  (c7_single_sensor_queries true false false false false false false
    (by decide)).1 rfl

/-- C10.  For every snapshot, both queries return a value in
{-1, 0, 1, 2}; when some stop (resp. slow) sensor is covered the query
returns a covered station and no covered station is smaller, the left
line taking priority over the center lines and those over the right;
the slow query returns 1 whenever a center slow sensor is covered and
the left slow is not; with no covered line of the kind, the query
returns -1. -/
theorem c10_sensor_priority :
    ∀ a b c d e f g : Bool,
      (check_stop ⟨a, b, c, d, e, f, g⟩ = -1
          ∨ check_stop ⟨a, b, c, d, e, f, g⟩ = 0
          ∨ check_stop ⟨a, b, c, d, e, f, g⟩ = 1
          ∨ check_stop ⟨a, b, c, d, e, f, g⟩ = 2)
        ∧ (check_slow ⟨a, b, c, d, e, f, g⟩ = -1
            ∨ check_slow ⟨a, b, c, d, e, f, g⟩ = 0
            ∨ check_slow ⟨a, b, c, d, e, f, g⟩ = 1
            ∨ check_slow ⟨a, b, c, d, e, f, g⟩ = 2)
        ∧ ((a || d || g) = true →
            stopCoveredAt ⟨a, b, c, d, e, f, g⟩
                (check_stop ⟨a, b, c, d, e, f, g⟩)
              ∧ ∀ j : Fin 3, stopCoveredAt ⟨a, b, c, d, e, f, g⟩ (j.val : ℤ) →
                  check_stop ⟨a, b, c, d, e, f, g⟩ ≤ (j.val : ℤ))
        ∧ ((a || d || g) = false → check_stop ⟨a, b, c, d, e, f, g⟩ = -1)
        ∧ ((b || c || e || f) = true →
            slowCoveredAt ⟨a, b, c, d, e, f, g⟩
                (check_slow ⟨a, b, c, d, e, f, g⟩)
              ∧ ∀ j : Fin 3, slowCoveredAt ⟨a, b, c, d, e, f, g⟩ (j.val : ℤ) →
                  check_slow ⟨a, b, c, d, e, f, g⟩ ≤ (j.val : ℤ))
        ∧ ((b || c || e || f) = false → check_slow ⟨a, b, c, d, e, f, g⟩ = -1)
        ∧ (b = false → (c || e) = true →
            check_slow ⟨a, b, c, d, e, f, g⟩ = 1) := by
  decide

/-- C10 witness: with both the right-of-center slow and right slow
covered, the slow query returns the middle station. -/
theorem c10_sensor_priority_witness :
    check_slow ⟨false, false, false, false, true, true, false⟩ = 1 :=
  (c10_sensor_priority false false false false true true false).2.2.2.2.2.2
    rfl rfl

/-- C8.  For every schedule record and clock reading (with hour and
minute fields in clock range), the schedule check returns true when the
enabled flag is zero, and otherwise returns true exactly when
on-minutes is at most now-minutes and now-minutes is below off-minutes,
each counted since midnight; in particular the documented 06:00-22:00
enabled schedule operates at 12:00 and not at 23:00 nor at 5:59. -/
theorem c8_schedule_gate :
    (∀ (sched : Schedule) (c : Clock),
        0 ≤ sched.on_hour → sched.on_hour < 24 →
        0 ≤ sched.on_minute → sched.on_minute < 60 →
        0 ≤ sched.off_hour → sched.off_hour < 24 →
        0 ≤ sched.off_minute → sched.off_minute < 60 →
        0 ≤ c.hour → c.hour < 24 → 0 ≤ c.minute → c.minute < 60 →
          (check_schedule sched c = true ↔
            (sched.enabled = 0
              ∨ (sched.on_hour * 60 + sched.on_minute
                    ≤ c.hour * 60 + c.minute
                  ∧ c.hour * 60 + c.minute
                    < sched.off_hour * 60 + sched.off_minute))))
      ∧ check_schedule ⟨6, 0, 22, 0, 1⟩ ⟨12, 0, 0⟩ = true
      ∧ check_schedule ⟨6, 0, 22, 0, 1⟩ ⟨23, 0, 0⟩ = false
      ∧ check_schedule ⟨6, 0, 22, 0, 1⟩ ⟨5, 59, 0⟩ = false := by
  refine ⟨?_, by decide, by decide, by decide⟩
  intro sched c h1 h2 h3 h4 h5 h6 h7 h8 h9 h10
  unfold check_schedule i16
  split_ifs with he
  · simp [he]
  · simp only [decide_eq_true_eq, he, false_or]
    omega

/-- C8 witness: the general window test instantiated at noon under the
default schedule. -/
theorem c8_schedule_gate_witness :
    check_schedule ⟨6, 0, 22, 0, 1⟩ ⟨12, 0, 0⟩ = true ↔
      ((1 : ℤ) = 0
        ∨ ((6 : ℤ) * 60 + 0 ≤ 12 * 60 + 0 ∧ (12 : ℤ) * 60 + 0 < 22 * 60 + 0)) := by
  exact c8_schedule_gate.1 ⟨6, 0, 22, 0, 1⟩ ⟨12, 0, 0⟩ (by decide) (by decide)
    (by decide) (by decide) (by decide) (by decide) (by decide) (by decide)
    (by decide) (by decide) (by decide) (by decide)

/-- C5 counterexample.  A wait at the middle station (station 1) under
the enabled default schedule, sampled at 23:00: the schedule check
reports not-operating and the step still moves to sleeping with the
motor power cut — the transition is not restricted to the termini. -/
theorem c5_waiting_sleep_counterexample :
    c5WaitState.program_state = STATE_WAITING
      ∧ c5WaitState.current_station = 1
      ∧ check_schedule c5WaitState.on_off_times c5NightInput.clock = false
      ∧ (loopStep c5WaitState c5NightInput).program_state = STATE_SLEEPING
      ∧ (loopStep c5WaitState c5NightInput).motor_speed = 0 := by
  decide

/-- C5 amended.  In the waiting state, whenever the schedule check
reports not-operating (and no serial depart command arrives), the step
moves to sleeping and cuts the motor power to zero, at every station,
the middle station included. -/
theorem c5_waiting_sleep_amended (s : TState) (i : LoopInput)
    (hp : s.program_state = STATE_WAITING) (hd : i.departNow = false)
    (hs : check_schedule s.on_off_times i.clock = false) :
    (loopStep s i).program_state = STATE_SLEEPING
      ∧ (loopStep s i).motor_speed = 0 := by
  have hmenu : menuStep s i = s := by simp [menuStep, hd]
  have hsw : switchStep s i = waitingStep s i := by
    simp only [switchStep, hp]
    norm_num [STATE_SLEEPING, STATE_STARTUP, STATE_WAITING]
  have hw : (waitingStep s i).program_state = STATE_SLEEPING
      ∧ (waitingStep s i).motor_speed = 0 := by
    unfold waitingStep
    simp [hs]
  unfold loopStep
  rw [hmenu, hsw]
  simpa using hw

/-- C5 amended, witness at the concrete middle-station night wait. -/
theorem c5_waiting_sleep_amended_witness :
    (loopStep c5WaitState c5NightInput).program_state = STATE_SLEEPING
      ∧ (loopStep c5WaitState c5NightInput).motor_speed = 0 :=
  c5_waiting_sleep_amended c5WaitState c5NightInput (by decide) (by decide)
    (by decide)

/-- The startup recovery loop neither leaves the startup state nor
locates the train while every sample it draws reports no covered stop
sensor. -/
theorem startupLoop_all_none (l : List Snap) (s : TState)
    (hl : ∀ sn ∈ l, check_stop sn = -1) (hcs : s.current_station = -1) :
    (startupLoop s l).program_state = s.program_state
      ∧ (startupLoop s l).current_station = -1 := by
  induction l generalizing s with
  | nil => exact ⟨rfl, hcs⟩
  | cons sn rest ih =>
    have hsn : check_stop sn = -1 := hl sn (by simp)
    have hrest : ∀ x ∈ rest, check_stop x = -1 := fun x hx => hl x (by simp [hx])
    unfold startupLoop
    rw [if_pos hcs]
    simp only [hsn]
    norm_num
    exact ih { s with temp_station := -1, current_station := -1 } hrest rfl

/-- C9.  From the startup state, when the serial port delivers no
depart command, the first stop-sensor sample reports none found, and so
does every extra sample of the recovery loop, the iteration leaves the
state machine in the startup state. -/
theorem c9_startup_stays (s : TState) (i : LoopInput)
    (hp : s.program_state = STATE_STARTUP) (hd : i.departNow = false)
    (h0 : check_stop i.snap = -1)
    (hl : ∀ sn ∈ i.extraSnaps, check_stop sn = -1) :
    (loopStep s i).program_state = STATE_STARTUP := by
  have hmenu : menuStep s i = s := by simp [menuStep, hd]
  have hsw : switchStep s i = startupStep s i := by
    simp only [switchStep, hp]
    norm_num [STATE_SLEEPING, STATE_STARTUP]
  have hloop := startupLoop_all_none i.extraSnaps
    { s with is_startup := false, temp_station := -1, current_station := -1 }
    hl rfl
  have hst : (startupStep s i).program_state = STATE_STARTUP := by
    unfold startupStep
    simp only [h0]
    norm_num
    rw [if_pos hloop.2, hloop.1]
    exact hp
  unfold loopStep
  rw [hmenu, hsw]
  simpa using hst

/-- C9 witness: power-on startup with an empty snapshot and one extra
empty recovery sample. -/
theorem c9_startup_stays_witness :
    (loopStep powerOn
        { departNow := false, snap := noneSnap, extraSnaps := [noneSnap],
          nowMs := 0, nowUs := 0, clock := ⟨12, 0, 0⟩ }).program_state
      = STATE_STARTUP :=
  c9_startup_stays powerOn _ (by decide) rfl (by decide) (by decide)

/-! ### The quarter-grid speed invariant -/

theorem QInv_zero : QInv 0 := ⟨0, by norm_num, by norm_num⟩

theorem QInv_idle : QInv IDLE_SPEED := ⟨32, by norm_num, by norm_num [IDLE_SPEED]⟩

theorem QInv_start : QInv START_SPEED :=
  ⟨40, by norm_num, by norm_num [START_SPEED]⟩

theorem QInv_min : QInv MIN_SPEED := ⟨60, by norm_num, by norm_num [MIN_SPEED]⟩

theorem QInv_add_quarter (q : ℚ) (h : QInv q) (hlt : q < MAX_SPEED) :
    QInv (q + 1/4) := by
  obtain ⟨k, hk, rfl⟩ := h
  have hq : (k : ℚ) < 164 := by rw [MAX_SPEED] at hlt; linarith
  have hk' : k < 164 := by exact_mod_cast hq
  refine ⟨k + 1, by omega, ?_⟩
  push_cast
  ring

theorem QInv_sub_one (q : ℚ) (h : QInv q) (hgt : MIN_SPEED < q) :
    QInv (q - 1) := by
  obtain ⟨k, hk, rfl⟩ := h
  have hq : (60 : ℚ) < k := by rw [MIN_SPEED] at hgt; linarith
  have hk' : 60 < k := by exact_mod_cast hq
  refine ⟨k - 4, by omega, ?_⟩
  rw [Nat.cast_sub (by omega)]
  push_cast
  ring

theorem QInv_bounds (q : ℚ) (h : QInv q) : 0 ≤ q ∧ q ≤ MAX_SPEED := by
  obtain ⟨k, hk, rfl⟩ := h
  refine ⟨by positivity, ?_⟩
  rw [MAX_SPEED]
  have hq : (k : ℚ) ≤ 164 := by exact_mod_cast hk
  linarith

/-! ### How each branch of the loop treats the commanded speed -/

theorem sleepingStep_motor_speed (s : TState) (i : LoopInput) :
    (sleepingStep s i).motor_speed = s.motor_speed := by
  simp [sleepingStep]

theorem runningStep_motor_speed (s : TState) (i : LoopInput) :
    (runningStep s i).motor_speed = s.motor_speed := by
  simp [runningStep]

theorem slowStep_motor_speed (s : TState) (i : LoopInput) :
    (slowStep s i).motor_speed = s.motor_speed := by
  simp [slowStep]

theorem stoppedStep_motor_speed (s : TState) (i : LoopInput) :
    (stoppedStep s i).motor_speed = IDLE_SPEED := by
  simp [stoppedStep]

theorem menuStep_qinv (s : TState) (i : LoopInput) (h : QInv s.motor_speed) :
    QInv (menuStep s i).motor_speed := by
  simp only [menuStep, ite_motor_speed]
  split_ifs
  · exact QInv_start
  · exact h

theorem waitingStep_qinv (s : TState) (i : LoopInput)
    (h : QInv s.motor_speed) : QInv (waitingStep s i).motor_speed := by
  simp only [waitingStep, ite_motor_speed, ite_self]
  split_ifs <;> first
    | exact QInv_zero
    | exact QInv_idle
    | exact QInv_start
    | exact h

theorem accelStep_speed_cases (s : TState) (i : LoopInput) :
    (accelStep s i).motor_speed = s.motor_speed
      ∨ ((accelStep s i).motor_speed = s.motor_speed + 1/4
          ∧ s.motor_speed < MAX_SPEED) := by
  simp only [accelStep, ite_motor_speed, ite_self]
  split_ifs <;> first
    | (left; rfl)
    | (right; exact ⟨rfl, by linarith⟩)

theorem deaccelTail_speed_cases (s : TState) (i : LoopInput) :
    (deaccelTail s i).motor_speed = s.motor_speed
      ∨ ((deaccelTail s i).motor_speed = s.motor_speed - 1
          ∧ MIN_SPEED < s.motor_speed) := by
  simp only [deaccelTail, ite_motor_speed, ite_self, ite_deaccel_tick_time]
  split_ifs <;> first
    | (left; rfl)
    | (right; exact ⟨rfl, by tauto⟩)

theorem deaccelStep_speed_cases (s : TState) (i : LoopInput) :
    (deaccelStep s i).motor_speed = s.motor_speed
      ∨ ((deaccelStep s i).motor_speed = s.motor_speed - 1
          ∧ MIN_SPEED < s.motor_speed) := by
  simp only [deaccelStep, ite_motor_speed]
  split_ifs <;> first
    | (left; rfl)
    | exact deaccelTail_speed_cases _ i

theorem accelStep_qinv (s : TState) (i : LoopInput)
    (h : QInv s.motor_speed) : QInv (accelStep s i).motor_speed := by
  rcases accelStep_speed_cases s i with he | ⟨he, hlt⟩
  · rw [he]; exact h
  · rw [he]; exact QInv_add_quarter _ h hlt

theorem deaccelStep_qinv (s : TState) (i : LoopInput)
    (h : QInv s.motor_speed) : QInv (deaccelStep s i).motor_speed := by
  rcases deaccelStep_speed_cases s i with he | ⟨he, hgt⟩
  · rw [he]; exact h
  · rw [he]; exact QInv_sub_one _ h hgt

theorem startupLoop_qinv (l : List Snap) (s : TState)
    (h : QInv s.motor_speed) : QInv (startupLoop s l).motor_speed := by
  induction l generalizing s with
  | nil => exact h
  | cons sn rest ih =>
    simp only [startupLoop]
    split_ifs <;> first
      | exact h
      | (apply ih; first | exact h | exact QInv_min)

theorem startupStep_qinv (s : TState) (i : LoopInput)
    (h : QInv s.motor_speed) : QInv (startupStep s i).motor_speed := by
  simp only [startupStep]
  split_ifs <;> (apply startupLoop_qinv; first | exact h | exact QInv_min)

theorem switchStep_qinv (s : TState) (i : LoopInput)
    (h : QInv s.motor_speed) : QInv (switchStep s i).motor_speed := by
  unfold switchStep
  split_ifs
  · rw [sleepingStep_motor_speed]; exact h
  · exact startupStep_qinv s i h
  · exact waitingStep_qinv s i h
  · exact accelStep_qinv s i h
  · rw [runningStep_motor_speed]; exact h
  · exact deaccelStep_qinv s i h
  · rw [slowStep_motor_speed]; exact h
  · rw [stoppedStep_motor_speed]; exact QInv_idle
  · exact h

theorem loopStep_speedInv (s : TState) (i : LoopInput) (h : SpeedInv s) :
    SpeedInv (loopStep s i) := by
  unfold SpeedInv at *
  unfold loopStep
  rw [motorStep_motor_speed]
  exact switchStep_qinv _ _ (menuStep_qinv _ _ h)

theorem reachable_speedInv (s : TState) (h : Reachable s) : SpeedInv s := by
  obtain ⟨w, sched, inputs, rfl⟩ := h
  have hall : ∀ s0 : TState, SpeedInv s0 →
      SpeedInv (List.foldl loopStep s0 inputs) := by
    induction inputs with
    | nil => exact fun s0 h0 => h0
    | cons a l ih => exact fun s0 h0 => ih _ (loopStep_speedInv _ _ h0)
  exact hall _ QInv_zero

theorem accelStep_motor_speed_le (s : TState) (i : LoopInput) :
    s.motor_speed ≤ (accelStep s i).motor_speed := by
  rcases accelStep_speed_cases s i with he | ⟨he, _⟩ <;> rw [he] <;> linarith

theorem deaccelStep_motor_speed_le (s : TState) (i : LoopInput) :
    (deaccelStep s i).motor_speed ≤ s.motor_speed := by
  rcases deaccelStep_speed_cases s i with he | ⟨he, _⟩ <;> rw [he] <;> linarith

theorem switchStep_at_accel (s : TState) (i : LoopInput)
    (hp : s.program_state = STATE_ACCEL) : switchStep s i = accelStep s i := by
  simp only [switchStep, hp]
  norm_num [STATE_SLEEPING, STATE_STARTUP, STATE_WAITING, STATE_ACCEL]

theorem switchStep_at_deaccel (s : TState) (i : LoopInput)
    (hp : s.program_state = STATE_DEACCEL) :
    switchStep s i = deaccelStep s i := by
  simp only [switchStep, hp]
  norm_num [STATE_SLEEPING, STATE_STARTUP, STATE_WAITING, STATE_ACCEL,
    STATE_RUNNING, STATE_DEACCEL]

/-- C4 counterexample.  A four-iteration run from power-on reaches the
accelerating state right after a terminus departure, where the
commanded speed is START_SPEED = 10: a motion state with non-idle,
non-zero speed strictly below MIN_SPEED = 15, refuting the clause that
the speed never drops below MIN_SPEED while the train moves. -/
theorem c4_speed_invariant_counterexample :
    Reachable c4Trace ∧ movingState c4Trace
      ∧ c4Trace.motor_speed < MIN_SPEED := by
  refine ⟨⟨⟨0, 0, 0⟩, ⟨0, 0, 0, 0, 0⟩, _, rfl⟩, by decide, by decide⟩

/-- C4 amended.  In every reachable state the commanded speed lies in
[0, MAX_SPEED]; a loop iteration without a serial depart command never
decreases the speed while accelerating and never increases it while
decelerating.  The clause that the speed stays at or above MIN_SPEED
while the train is moving does not hold of the code: departures load
START_SPEED = 10 < MIN_SPEED = 15. -/
theorem c4_speed_invariant_amended (s : TState) (i : LoopInput)
    (hr : Reachable s) (hd : i.departNow = false) :
    (0 ≤ s.motor_speed ∧ s.motor_speed ≤ MAX_SPEED)
      ∧ (s.program_state = STATE_ACCEL →
          s.motor_speed ≤ (loopStep s i).motor_speed)
      ∧ (s.program_state = STATE_DEACCEL →
          (loopStep s i).motor_speed ≤ s.motor_speed) := by
  have hm : menuStep s i = s := by simp [menuStep, hd]
  refine ⟨QInv_bounds _ (reachable_speedInv s hr), ?_, ?_⟩
  · intro hp
    unfold loopStep
    rw [hm, switchStep_at_accel s i hp, motorStep_motor_speed]
    exact accelStep_motor_speed_le s i
  · intro hp
    unfold loopStep
    rw [hm, switchStep_at_deaccel s i hp, motorStep_motor_speed]
    exact deaccelStep_motor_speed_le s i

/-- C4 amended, witness at the power-on state. -/
theorem c4_speed_invariant_amended_witness :
    (0 ≤ powerOn.motor_speed ∧ powerOn.motor_speed ≤ MAX_SPEED)
      ∧ (powerOn.program_state = STATE_ACCEL →
          powerOn.motor_speed
            ≤ (loopStep powerOn (mkInput noneSnap 0 0 ⟨12, 0, 0⟩)).motor_speed)
      ∧ (powerOn.program_state = STATE_DEACCEL →
          (loopStep powerOn (mkInput noneSnap 0 0 ⟨12, 0, 0⟩)).motor_speed
            ≤ powerOn.motor_speed) :=
  c4_speed_invariant_amended powerOn (mkInput noneSnap 0 0 ⟨12, 0, 0⟩)
    ⟨⟨0, 0, 0⟩, ⟨0, 0, 0, 0, 0⟩, [], rfl⟩ rfl

end TrainCtl
